import Mathlib

/-!
Verification of the "AI Life Coach" Express/Mongoose application.

Shallow embedding of the parts of the code that the checked properties
are about:

* `src/backend/models/Goals.js` — the Goal document and its
  `updateProgress` instance method.
* `src/backend/services/goalAnalysis.js` — the goal-analysis service
  (`calculateOverallProgress`, `getProgressStatus`,
  `generateRecommendations`) and the goal routes
  (`PUT /api/goals/:id/progress`, `POST /api/goals/:id/checkin`).
* `src/middleware/errorHandler.js` — the `AppError` class, the
  Mongoose/JWT/OpenAI error translators, `sendErrorProd`,
  `globalErrorHandler`, `handleDatabaseError`, the JWT `auth`
  middleware and the `bruteForceProtection` middleware.
* `src/middleware/validation.js` — `handleValidationErrors`.
* `src/backend/services/routes/users.js` — the `POST /api/auth/register`
  route.
* `src/backend/services/routes/chat.js` — the chat routes, in
  particular `POST /api/chat/feedback`.

JavaScript numbers are modelled by `ℚ` (dates and durations in
milliseconds by `ℤ`), JS `Map`s by functions into `Option`, and the
HTTP responses by an explicit `Resp` type.
-/

namespace LifeCoach

/-! ## Goal model (src/backend/models/Goals.js) -/

/-- One entry of `goalSchema.progressHistory`: `{date, progress, note}`. -/
structure ProgressEntry where
  date : Int
  progress : Rat
  note : String
deriving Repr, DecidableEq

/-- One entry of `goalSchema.checkIns`:
`{date, mood, confidence, obstacles, wins, note}`. -/
structure CheckIn where
  date : Int
  mood : Option Rat
  confidence : Option Rat
  obstacles : List String
  wins : List String
  note : String
deriving Repr, DecidableEq

/-- One entry of `goalSchema.milestones`. -/
structure Milestone where
  text : String
  completed : Bool
  completedAt : Option Int
  dueDate : Option Int
deriving Repr, DecidableEq

/-- The `status` enum of `goalSchema`. -/
inductive GoalStatus
  | active
  | paused
  | completed
  | archived
deriving Repr, DecidableEq

/-- The Goal document (the fields of `goalSchema` that the verified
operations read or write). -/
structure Goal where
  userId : Nat
  title : String
  category : String
  status : GoalStatus
  progress : Rat
  targetDate : Option Int
  completedDate : Option Int
  milestones : List Milestone
  progressHistory : List ProgressEntry
  checkIns : List CheckIn
deriving Repr, DecidableEq

/-- `goalSchema.methods.updateProgress(newProgress, note)`:
clamps the new progress with `Math.max(0, Math.min(100, newProgress))`,
pushes a `progressHistory` entry carrying the clamped value, and if the
progress is now `100` and the status is not already `completed`, sets
the status to `completed` and stamps `completedDate`.  `now` stands for
`new Date()`. -/
def Goal.updateProgress (g : Goal) (newProgress : Rat) (note : String) (now : Int) : Goal :=
  let p := max 0 (min 100 newProgress)
  let g1 : Goal :=
    { g with
      progress := p
      progressHistory := g.progressHistory ++ [{ date := now, progress := p, note := note }] }
  if p = 100 ∧ g1.status ≠ GoalStatus.completed then
    { g1 with status := GoalStatus.completed, completedDate := some now }
  else
    g1

/-- The body of `POST /api/goals/:id/checkin` (routes/goals.js): pushes
one entry onto `goal.checkIns` and saves; no other field is touched. -/
def Goal.addCheckIn (g : Goal) (c : CheckIn) : Goal :=
  { g with checkIns := g.checkIns ++ [c] }

/-- The goal mutations reachable through the goal routes:
`PUT /api/goals/:id/progress` (which calls `updateProgress`) and
`POST /api/goals/:id/checkin`. -/
inductive GoalOp
  | updateProgress (newProgress : Rat) (note : String) (now : Int)
  | checkIn (c : CheckIn)
deriving Repr, DecidableEq

/-- Apply a single goal operation. -/
def applyGoalOp (g : Goal) : GoalOp → Goal
  | GoalOp.updateProgress p note now => g.updateProgress p note now
  | GoalOp.checkIn c => g.addCheckIn c

/-- Apply a sequence of goal operations, oldest first. -/
def applyGoalOps (g : Goal) (ops : List GoalOp) : Goal :=
  ops.foldl applyGoalOp g

/-- A freshly created goal as built by `POST /api/goals`
(routes/goals.js): schema defaults give `status: active`,
`progress: 0`, empty logs. -/
def sampleFreshGoal : Goal :=
  { userId := 1
    title := "run a marathon"
    category := "fitness"
    status := GoalStatus.active
    progress := 0
    targetDate := none
    completedDate := none
    milestones := []
    progressHistory := []
    checkIns := [] }

/-! ## Error-handling model (src/middleware/errorHandler.js)

An `ErrObj` carries the enumerable fields of a JS error object that the
error-handling pipeline reads: `statusCode`, `status`, `isOperational`
(from `AppError`), `name`, `code`/`keyValue` (MongoDB duplicate keys),
the messages of `err.errors` (Mongoose validation), `path`/`value`
(cast errors), `type` (rate limiting) and `err.response.status`
(OpenAI).  Missing fields are `none` (resp. `false` for
`isOperational`, mirroring a missing/undefined flag being falsy). -/
/-- JS `String.prototype.startsWith`, on the character data (kept
executable for concrete inputs). -/
def jsStartsWith (s p : String) : Bool :=
  p.data.isPrefixOf s.data

/-- JS `String.prototype.slice(n)` (drop the first `n` characters). -/
def jsSlice (s : String) (n : Nat) : String :=
  String.mk (s.data.drop n)

structure ErrObj where
  name : Option String
  message : String
  statusCode : Option Nat
  status : Option String
  isOperational : Bool
  code : Option Int
  keyValue : List (String × String)
  errorsMsgs : List String
  path : Option String
  value : Option String
  type : Option String
  responseStatus : Option Nat
  retryAfter : Option Nat
deriving Repr, DecidableEq

/-- `new AppError(message, statusCode, isOperational = true)`:
sets `statusCode`, sets `status` to `"fail"` for 4xx codes and
`"error"` otherwise, and `isOperational`.  As an `Error` subclass its
`name` is `"Error"`; it carries none of the database/JWT/OpenAI
fields. -/
def mkAppError (message : String) (statusCode : Nat) (isOperational : Bool := true) : ErrObj :=
  { name := some "Error"
    message := message
    statusCode := some statusCode
    status := some (if jsStartsWith (toString statusCode) "4" then "fail" else "error")
    isOperational := isOperational
    code := none
    keyValue := []
    errorsMsgs := []
    path := none
    value := none
    type := none
    responseStatus := none
    retryAfter := none }

/-- The formatted item of a validation-failure response body
(validation.js lines 16-20). -/
structure FormattedError where
  field : String
  message : String
  value : String
deriving Repr, DecidableEq

/-- A JSON response body.  Only the fields the verified properties
mention are modelled; `error`, `retryAfter` and `details` default to
absent. -/
structure JsonBody where
  success : Bool
  error : Option String := none
  retryAfter : Option Nat := none
  details : List FormattedError := []
deriving Repr, DecidableEq

/-- An HTTP response: a JSON response (`res.status(..).json(..)`) or a
rendered page (`res.status(..).render(..)`). -/
inductive Resp
  | json (statusCode : Nat) (body : JsonBody)
  | render (statusCode : Nat) (msg : String)
deriving Repr, DecidableEq

/-- The HTTP status code of a response. -/
def Resp.statusCodeOf : Resp → Nat
  | Resp.json s _ => s
  | Resp.render s _ => s

/-- The `success` field of a JSON response body, if any. -/
def Resp.successField : Resp → Option Bool
  | Resp.json _ b => some b.success
  | Resp.render _ _ => none

/-- The `error` field of a JSON response body, if any. -/
def Resp.errorField : Resp → Option String
  | Resp.json _ b => b.error
  | Resp.render _ _ => none

/-- `handleCastErrorDB`: invalid ObjectId casts become an operational
400. -/
def handleCastErrorDB (e : ErrObj) : ErrObj :=
  mkAppError ("Invalid " ++ e.path.getD "undefined" ++ ": " ++ e.value.getD "undefined") 400

/-- `handleDuplicateFieldsDB`: duplicate-key errors become an
operational 400 whose message names the duplicated field
(`Object.keys(err.keyValue)[0]`) and its value. -/
def handleDuplicateFieldsDB (e : ErrObj) : ErrObj :=
  let field := (e.keyValue.head?.map Prod.fst).getD "undefined"
  let value := (e.keyValue.head?.map Prod.snd).getD "undefined"
  mkAppError (field ++ " \x27" ++ value ++ "\x27 already exists. Please use another value.") 400

/-- `handleValidationErrorDB`: Mongoose validation errors become an
operational 400 joining the per-field messages. -/
def handleValidationErrorDB (e : ErrObj) : ErrObj :=
  mkAppError ("Invalid input data: " ++ String.intercalate ". " e.errorsMsgs) 400

/-- `handleJWTError`. -/
def handleJWTError : ErrObj :=
  mkAppError "Invalid token. Please log in again." 401

/-- `handleJWTExpiredError`. -/
def handleJWTExpiredError : ErrObj :=
  mkAppError "Your token has expired. Please log in again." 401

/-- `handleOpenAIError`: maps the upstream status to an operational
error; the default (no response or unlisted status) is a 503. -/
def handleOpenAIError (e : ErrObj) : ErrObj :=
  match e.responseStatus with
  | some 400 => mkAppError "Invalid request to AI service." 400
  | some 401 => mkAppError "AI service authentication failed." 500
  | some 429 => mkAppError "AI service rate limit exceeded. Please try again later." 429
  | some 500 => mkAppError "AI service temporarily unavailable." 503
  | some 502 => mkAppError "AI service temporarily unavailable." 503
  | some 503 => mkAppError "AI service temporarily unavailable." 503
  | _ => mkAppError "AI service temporarily unavailable. Please try again later." 503

/-- `handleDBConnectionError` (the argument is only logged). -/
def handleDBConnectionError (_e : ErrObj) : ErrObj :=
  mkAppError "Database temporarily unavailable. Please try again later." 503

/-- `handleRateLimitError` (the argument is unused in the source). -/
def handleRateLimitError (_e : ErrObj) : ErrObj :=
  mkAppError "Too many requests from this IP. Please try again later." 429

/-- The fixed message of the masked production 500. -/
def genericProdMessage : String :=
  "Something went wrong on our end. Please try again later."

/-- `sendErrorProd(err, req, res)`: on `/api` URLs, an operational
error is surfaced as JSON with its own status code and message (plus
`retryAfter` when the code is 429); any other error is masked as a
fixed 500.  On non-API URLs an error page is rendered.  The
`statusCode` default mirrors `globalErrorHandler` having set
`err.statusCode = err.statusCode || 500` before the call. -/
def sendErrorProd (e : ErrObj) (originalUrl : String) : Resp :=
  if jsStartsWith originalUrl "/api" then
    if e.isOperational then
      Resp.json (e.statusCode.getD 500)
        { success := false
          error := some e.message
          retryAfter := if e.statusCode = some 429 then e.retryAfter else none }
    else
      Resp.json 500 { success := false, error := some genericProdMessage }
  else
    if e.isOperational then
      Resp.render (e.statusCode.getD 500) e.message
    else
      Resp.render (e.statusCode.getD 500) "Please try again later."

/-- `err.statusCode = err.statusCode || 500; err.status = err.status ||
'error'` at the top of `globalErrorHandler`. -/
def defaultStatused (e : ErrObj) : ErrObj :=
  { e with
    statusCode := some (e.statusCode.getD 500)
    status := some (e.status.getD "error") }

/-- `if (error.name === 'CastError') error = handleCastErrorDB(error)`. -/
def stepCast (e : ErrObj) : ErrObj :=
  if e.name = some "CastError" then handleCastErrorDB e else e

/-- `if (error.code === 11000) error = handleDuplicateFieldsDB(error)`. -/
def stepDup (e : ErrObj) : ErrObj :=
  if e.code = some 11000 then handleDuplicateFieldsDB e else e

/-- `if (error.name === 'ValidationError') ...`. -/
def stepValidation (e : ErrObj) : ErrObj :=
  if e.name = some "ValidationError" then handleValidationErrorDB e else e

/-- `if (error.name === 'JsonWebTokenError') ...`. -/
def stepJWT (e : ErrObj) : ErrObj :=
  if e.name = some "JsonWebTokenError" then handleJWTError else e

/-- `if (error.name === 'TokenExpiredError') ...`. -/
def stepJWTExpired (e : ErrObj) : ErrObj :=
  if e.name = some "TokenExpiredError" then handleJWTExpiredError else e

/-- `if (error.name === 'MongoNetworkError' || error.name ===
'MongoTimeoutError') ...`. -/
def stepMongoConn (e : ErrObj) : ErrObj :=
  if e.name = some "MongoNetworkError" ∨ e.name = some "MongoTimeoutError" then
    handleDBConnectionError e
  else e

/-- `if (error.type === 'RateLimitError') ...`. -/
def stepRateLimit (e : ErrObj) : ErrObj :=
  if e.type = some "RateLimitError" then handleRateLimitError e else e

/-- `if (error.response && error.response.status) ...`. -/
def stepOpenAI (e : ErrObj) : ErrObj :=
  if e.responseStatus.isSome then handleOpenAIError e else e

/-- The translation chain of `globalErrorHandler` in its production
branch (applied to the spread copy of the incoming error). -/
def translateError (e : ErrObj) : ErrObj :=
  stepOpenAI (stepRateLimit (stepMongoConn (stepJWTExpired (stepJWT
    (stepValidation (stepDup (stepCast e)))))))

/-- `globalErrorHandler` when `process.env.NODE_ENV` is not
`'development'` (production): default the status code, translate the
known error shapes and send the production response. -/
def globalErrorHandlerProd (err : ErrObj) (originalUrl : String) : Resp :=
  sendErrorProd (translateError (defaultStatused err)) originalUrl

/-- `handleDatabaseError` middleware (installed before
`globalErrorHandler` in server.js): any `MongoError`/`MongoServerError`
is replaced by an operational 500 before it can reach the duplicate-key
translator. -/
def handleDatabaseErrorStep (e : ErrObj) : ErrObj :=
  if e.name = some "MongoError" ∨ e.name = some "MongoServerError" then
    mkAppError "Database operation failed. Please try again." 500
  else e

/-- The installed production error chain of server.js:
`logErrors` (pass-through) → `handleDatabaseError` →
`globalErrorHandler`. -/
def errorChainProd (e : ErrObj) (originalUrl : String) : Resp :=
  globalErrorHandlerProd (handleDatabaseErrorStep e) originalUrl

/-- A MongoDB duplicate-key error as raised by `save()` on the unique
`email` index: `name` `MongoServerError`, `code` 11000, `keyValue`
holding the duplicated field and value; it has no `isOperational`
flag. -/
def mkMongoDuplicateError (field value : String) : ErrObj :=
  { name := some "MongoServerError"
    message := "E11000 duplicate key error collection"
    statusCode := none
    status := none
    isOperational := false
    code := some 11000
    keyValue := [(field, value)]
    errorsMsgs := []
    path := none
    value := none
    type := none
    responseStatus := none
    retryAfter := none }

/-- The outcome of `await user.save()` in the register route. -/
inductive SaveOutcome
  | ok
  | err (e : ErrObj)
deriving Repr, DecidableEq

/-- `POST /api/auth/register` (routes/auth.js): a pre-check answers a
duplicate email with 400 `User already exists`; otherwise the user is
saved, and ANY exception — including a duplicate-key race — is caught
in the route itself and answered with 500 `Registration failed`,
without ever calling `next(err)`. -/
def registerHandler (emailExists : Bool) (save : SaveOutcome) : Resp :=
  if emailExists then
    Resp.json 400 { success := false, error := some "User already exists" }
  else
    match save with
    | SaveOutcome.ok => Resp.json 201 { success := true }
    | SaveOutcome.err _ => Resp.json 500 { success := false, error := some "Registration failed" }

/-! ## Validation middleware (src/middleware/validation.js) -/

/-- A raw `express-validator` error (`path`, `msg`, `value`). -/
structure RawValidationError where
  path : String
  msg : String
  value : String
deriving Repr, DecidableEq

/-- The mapping applied in `handleValidationErrors`
(`{field: error.path, message: error.msg, value: error.value}`). -/
def formatValidationError (e : RawValidationError) : FormattedError :=
  { field := e.path, message := e.msg, value := e.value }

/-- `handleValidationErrors(req, res, next)`: when the validation
result is non-empty, answer 400 with `success: false`, the fixed
`Validation failed` message and the formatted details; otherwise call
`next()` (modelled as `none`). -/
def handleValidationErrors (errors : List RawValidationError) : Option Resp :=
  if errors.isEmpty then none
  else
    some (Resp.json 400
      { success := false
        error := some "Validation failed"
        details := errors.map formatValidationError })

/-! ## JWT auth middleware (`auth` in middleware/auth.js, kept in
src/middleware/errorHandler.js lines 413-648) -/

/-- The user document fields read by the auth middleware. -/
structure AuthUser where
  status : String
deriving Repr, DecidableEq

/-- The outcome of `Jsonwebtoken.verify` / the remaining `try` body:
success, the two recognised JWT exceptions, or any other exception
(caught by the final `catch` branch). -/
inductive TokenVerify
  | ok
  | jwtInvalid
  | jwtExpired
  | otherFailure
deriving Repr, DecidableEq

/-- The request-dependent inputs of one run of the auth middleware. -/
structure AuthCtx where
  authHeader : Option String
  verify : TokenVerify
  user : Option AuthUser
deriving Repr, DecidableEq

/-- `Bearer`-token extraction: `authHeader.startsWith('Bearer ') ?
authHeader.slice(7, authHeader.length) : authHeader`. -/
def extractedToken (header : String) : String :=
  if jsStartsWith header "Bearer " then jsSlice header 7 else header

/-- The `auth` middleware: `some resp` when it answers the request
itself, `none` when it calls `next()`.  An absent or empty header is
falsy in JS, hence the first 401. -/
def authMiddleware (ctx : AuthCtx) : Option Resp :=
  if ctx.authHeader = none ∨ ctx.authHeader = some "" then
    some (Resp.json 401 { success := false, error := some "Access denied. No token provided." })
  else if extractedToken (ctx.authHeader.getD "") = "" then
    some (Resp.json 401 { success := false, error := some "Access denied. Invalid token format." })
  else
    match ctx.verify with
    | TokenVerify.jwtInvalid =>
        some (Resp.json 401 { success := false, error := some "Invalid token." })
    | TokenVerify.jwtExpired =>
        some (Resp.json 401 { success := false, error := some "Token has expired." })
    | TokenVerify.otherFailure =>
        some (Resp.json 500 { success := false, error := some "Authentication failed." })
    | TokenVerify.ok =>
        match ctx.user with
        | none =>
            some (Resp.json 401
              { success := false, error := some "Token is valid but user not found." })
        | some u =>
            if u.status = "suspended" ∨ u.status = "deleted" then
              some (Resp.json 403
                { success := false, error := some "Account has been suspended or deleted." })
            else none

/-- The conventional status codes of the HTTP surface named by the
spec. -/
def allowedErrorCodes : List Nat := [400, 401, 403, 404, 413, 415, 429, 500, 503]

/-- The status codes that the translators inside `globalErrorHandler`
can produce. -/
def coreTranslatedCodes : List Nat := [400, 401, 429, 500, 503]

/-- `e` is what the translation chain can make of `orig`: either the
error is untouched, or it was replaced by an operational translator
output whose code is one of the translator codes. -/
def TranslatedFrom (orig e : ErrObj) : Prop :=
  e = orig ∨ (e.isOperational = true ∧ e.statusCode.getD 500 ∈ coreTranslatedCodes)

/-! ## Chat messages (models/Message.js in src/unnamed/part_004, and
the chat routes of src/backend/services/routes/chat.js) -/

/-- The Message `type` enum of `messageSchema`. -/
inductive MsgType
  | user
  | ai
  | system
deriving Repr, DecidableEq

/-- One entry of `messageSchema.metadata.goalContext`
(`{goalId, relevanceScore}`). -/
structure GoalContextEntry where
  goalId : Nat
  relevanceScore : Option Rat
deriving Repr, DecidableEq

/-- `messageSchema.metadata` (models/Message.js): the declared
metadata paths are exactly `goalContext`, `sentiment`, `intent` and
`confidence` — the schema declares no
`userRating`/`userFeedback`/`feedbackDate` paths. -/
structure MessageMeta where
  goalContext : List GoalContextEntry := []
  sentiment : Option Rat := none
  intent : Option String := none
  confidence : Option Rat := none
deriving Repr, DecidableEq

/-- The Message document of `messageSchema` (models/Message.js). -/
structure Message where
  id : Nat
  userId : Nat
  conversationId : Option String := none
  type : MsgType
  content : String
  embedding : List Rat := []
  metadata : MessageMeta := {}
deriving Repr, DecidableEq

/-- A `$set` value of the shapes used by the routes. -/
inductive SetValue
  | num (q : Rat)
  | str (s : String)
  | date (ms : Int)
deriving Repr, DecidableEq

/-- The paths declared by `messageSchema` that a `$set` may target. -/
def messageSchemaPaths : List String :=
  ["userId", "conversationId", "type", "content", "embedding",
   "metadata.goalContext", "metadata.sentiment", "metadata.intent", "metadata.confidence"]

/-- Mongoose processes updates in strict mode by default: `$set` paths
that are not declared in the schema are stripped from the update. -/
def strictFilter (sets : List (String × SetValue)) : List (String × SetValue) :=
  sets.filter fun p => decide (p.1 ∈ messageSchemaPaths)

/-- Apply one (schema-declared) `$set` assignment to the document.
Only the paths of `messageSchemaPaths` reach this point; a path/value
combination no route produces leaves the document unchanged. -/
def applySet (m : Message) : String × SetValue → Message
  | ("content", SetValue.str s) => { m with content := s }
  | ("conversationId", SetValue.str s) => { m with conversationId := some s }
  | ("metadata.sentiment", SetValue.num q) =>
      { m with metadata := { m.metadata with sentiment := some q } }
  | ("metadata.intent", SetValue.str s) =>
      { m with metadata := { m.metadata with intent := some s } }
  | ("metadata.confidence", SetValue.num q) =>
      { m with metadata := { m.metadata with confidence := some q } }
  | _ => m

/-- Run a `$set` update against a document: strict-mode filtering,
then the surviving assignments. -/
def runSet (m : Message) (sets : List (String × SetValue)) : Message :=
  (strictFilter sets).foldl applySet m

/-- The three `$set` paths of `POST /api/chat/feedback`
(`metadata.userRating`, `metadata.userFeedback`,
`metadata.feedbackDate`; `now` models `new Date()`). -/
def feedbackSetPaths (rating : Rat) (feedback : String) (now : Int) :
    List (String × SetValue) :=
  [("metadata.userRating", SetValue.num rating),
   ("metadata.userFeedback", SetValue.str feedback),
   ("metadata.feedbackDate", SetValue.date now)]

/-- The document-level effect of the feedback endpoint's
`findOneAndUpdate` `$set` on the matched message. -/
def applyFeedback (m : Message) (rating : Rat) (feedback : String) (now : Int) : Message :=
  runSet m (feedbackSetPaths rating feedback now)

/-- `findOneAndUpdate`: update the first element matching the filter,
leave every other element untouched. -/
def updateFirst (p : Message → Bool) (f : Message → Message) : List Message → List Message
  | [] => []
  | m :: ms => if p m then f m :: ms else m :: updateFirst p f ms

/-- The message-store operations the chat routes perform:
`POST /api/chat/message` saves one user message and one AI message,
`GET /api/chat/history` only reads, `POST /api/chat/feedback` runs
`findOneAndUpdate({_id, userId}, {$set: ...})`. -/
inductive ChatOp
  | sendMessage (userMsg aiMsg : Message)
  | history
  | feedback (messageId userId : Nat) (rating : Rat) (fb : String) (now : Int)

/-- Apply one chat operation to the stored messages. -/
def applyChatOp (store : List Message) : ChatOp → List Message
  | ChatOp.sendMessage u a => store ++ [u, a]
  | ChatOp.history => store
  | ChatOp.feedback mid uid r fb now =>
      updateFirst (fun m => m.id == mid && m.userId == uid)
        (fun m => applyFeedback m r fb now) store

/-! ## Goal analysis service (src/backend/services/goalAnalysis.js) -/

/-- `this.progressThresholds` set in the `GoalAnalysisService`
constructor. -/
structure ProgressThresholds where
  excellent : Rat
  good : Rat
  fair : Rat
  needsAttention : Rat

/-- The threshold values of the constructor. -/
def progressThresholds : ProgressThresholds :=
  { excellent := 80, good := 60, fair := 40, needsAttention := 20 }

/-- JS `Math.round` (round half up). -/
def mathRound (q : Rat) : Int := ⌊q + 1 / 2⌋

/-- `goals.filter(goal => goal.status === 'active')`. -/
def activeGoalsOf (goals : List Goal) : List Goal :=
  goals.filter fun g => decide (g.status = GoalStatus.active)

/-- `goals.filter(goal => goal.status === 'completed')`. -/
def completedGoalsOf (goals : List Goal) : List Goal :=
  goals.filter fun g => decide (g.status = GoalStatus.completed)

/-- `activeGoals.reduce((sum, goal) => sum + goal.progress, 0) /
activeGoals.length`. -/
def meanActiveProgress (goals : List Goal) : Rat :=
  ((activeGoalsOf goals).map Goal.progress).sum / ((activeGoalsOf goals).length : Rat)

/-- `getProgressStatus(avgProgress)`: thresholds checked from the top
down; the `needsAttention` threshold is never consulted. -/
def getProgressStatus (avgProgress : Rat) : String :=
  if progressThresholds.excellent ≤ avgProgress then "excellent"
  else if progressThresholds.good ≤ avgProgress then "good"
  else if progressThresholds.fair ≤ avgProgress then "fair"
  else "needs_attention"

/-- The object returned by `calculateOverallProgress`. -/
structure OverallProgress where
  averageProgress : Int
  activeCount : Nat
  completedCount : Nat
  status : String
deriving Repr, DecidableEq

/-- `calculateOverallProgress(goals)`: with no active goal, average 100
and `all_completed` when a completed goal exists, otherwise 0 and
`no_goals`; with active goals, the rounded mean of their progress and
the threshold status of the unrounded mean. -/
def calculateOverallProgress (goals : List Goal) : OverallProgress :=
  if (activeGoalsOf goals).length = 0 then
    { averageProgress := if 0 < (completedGoalsOf goals).length then 100 else 0
      activeCount := 0
      completedCount := (completedGoalsOf goals).length
      status := if 0 < (completedGoalsOf goals).length then "all_completed" else "no_goals" }
  else
    { averageProgress := mathRound (meanActiveProgress goals)
      activeCount := (activeGoalsOf goals).length
      completedCount := (completedGoalsOf goals).length
      status := getProgressStatus (meanActiveProgress goals) }

/-! ## Recommendations (`generateRecommendations` in goalAnalysis.js) -/

/-- A recommendation object pushed by `generateRecommendations`. -/
structure Recommendation where
  priority : String
  type : String
  message : String
  action : String
deriving Repr, DecidableEq

/-- The numeric priority table of the final sort:
`{high: 3, medium: 2, low: 1}` (an unknown key would read as
undefined; the generated recommendations only carry the listed
keys). -/
def priorityNum (p : String) : Int :=
  if p = "high" then 3
  else if p = "medium" then 2
  else if p = "low" then 1
  else 0

/-- The order realised by the comparator
`(a, b) => priority[b.priority] - priority[a.priority]`: `a` may come
before `b` exactly when the comparator value is <= 0. -/
def recPriorityGE (a b : Recommendation) : Prop :=
  priorityNum b.priority ≤ priorityNum a.priority

instance : DecidableRel recPriorityGE := fun a b =>
  inferInstanceAs (Decidable (priorityNum b.priority ≤ priorityNum a.priority))

instance : IsTotal Recommendation recPriorityGE :=
  ⟨fun a b => le_total (priorityNum b.priority) (priorityNum a.priority)⟩

instance : IsTrans Recommendation recPriorityGE :=
  ⟨fun _ _ _ hab hbc => le_trans hbc hab⟩

/-- The too-many-active-goals recommendation. -/
def focusRecommendation (n : Nat) : Recommendation :=
  { priority := "high"
    type := "focus"
    message := "Consider focusing on fewer goals. You have " ++ toString n ++
      " active goals. Research shows 2-3 goals is optimal for success."
    action := "Prioritize top 3 goals and pause others" }

/-- The stale-check-in recommendation. -/
def checkinRecommendation (n : Nat) : Recommendation :=
  { priority := "medium"
    type := "checkin"
    message := toString n ++ " goal(s) need a progress check-in."
    action := "Schedule weekly goal reviews" }

/-- The missing-milestones recommendation. -/
def structureRecommendation (n : Nat) : Recommendation :=
  { priority := "medium"
    type := "structure"
    message := toString n ++ " goal(s) would benefit from milestone planning."
    action := "Break down goals into smaller, measurable milestones" }

/-- The stale-check-in filter: never checked in, or more than 7 days
(in milliseconds) since the last check-in.  `now` is `Date.now()`. -/
def needsCheckIn (now : Int) (g : Goal) : Bool :=
  match g.checkIns.getLast? with
  | none => true
  | some c => decide ((7 : Rat) < ((now : Rat) - (c.date : Rat)) / (1000 * 60 * 60 * 24))

/-- `generateRecommendations(goals)`: push the high-priority focus
recommendation (more than 5 active goals) and the two medium-priority
ones (stale check-ins, missing milestones on goals under 50 percent),
then sort by descending numeric priority.  The JS comparator sort is
modelled by an insertion sort consistent with the comparator. -/
def generateRecommendations (now : Int) (goals : List Goal) : List Recommendation :=
  List.insertionSort recPriorityGE
    ((if 5 < (activeGoalsOf goals).length then
      [focusRecommendation (activeGoalsOf goals).length]
    else []) ++
   (if 0 < ((activeGoalsOf goals).filter (needsCheckIn now)).length then
      [checkinRecommendation ((activeGoalsOf goals).filter (needsCheckIn now)).length]
    else []) ++
   (if 0 < ((activeGoalsOf goals).filter fun g =>
        decide (g.milestones.length = 0 ∧ g.progress < 50)).length then
      [structureRecommendation ((activeGoalsOf goals).filter fun g =>
        decide (g.milestones.length = 0 ∧ g.progress < 50)).length]
    else []))

/-! ## Brute force protection (`bruteForceProtection` in
middleware/security.js, kept in src/middleware/errorHandler.js lines
982-1054) -/

/-- The per-key failed-attempt record (`{count, firstAttempt}`). -/
structure AttemptInfo where
  count : Nat
  firstAttempt : Int
deriving Repr, DecidableEq

/-- The middleware options with their source defaults
(`maxAttempts = 5`, `windowMs` 15 minutes, `blockDuration` 30
minutes, in milliseconds). -/
structure BFConfig where
  maxAttempts : Nat := 5
  windowMs : Int := 15 * 60 * 1000
  blockDuration : Int := 30 * 60 * 1000

/-- The closure state of one middleware instance: the `attempts` and
`blocked` Maps, keyed by `req.ip + ':' + email`. -/
structure BFState where
  attempts : String → Option AttemptInfo
  blocked : String → Option Int

/-- The observable outcome of one request through the middleware. -/
structure BFResult where
  state : BFState
  statusCode : Nat
  handlerReached : Bool

/-- The `res.on(..)` finish callback: a 401/403 response increments the
window-scoped failure count (restarting the window when
`now - firstAttempt > windowMs`) and, once the count reaches
`maxAttempts`, removes the attempts entry and blocks the key until
`now + blockDuration`; a 2xx response deletes the attempts entry; any
other status changes nothing. -/
def recordFinish (cfg : BFConfig) (st : BFState) (key : String) (now : Int)
    (statusCode : Nat) : BFState :=
  if statusCode = 401 ∨ statusCode = 403 then
    let info0 := (st.attempts key).getD { count := 0, firstAttempt := now }
    let info : AttemptInfo :=
      if cfg.windowMs < now - info0.firstAttempt then
        { count := 1, firstAttempt := now }
      else
        { count := info0.count + 1, firstAttempt := info0.firstAttempt }
    if cfg.maxAttempts ≤ info.count then
      { attempts := fun k => if k = key then none else st.attempts k
        blocked := fun k => if k = key then some (now + cfg.blockDuration) else st.blocked k }
    else
      { st with attempts := fun k => if k = key then some info else st.attempts k }
  else if 200 ≤ statusCode ∧ statusCode < 300 then
    { st with attempts := fun k => if k = key then none else st.attempts k }
  else st

/-- One request for `key` at time `now` whose wrapped handler would
answer `handlerStatus`: a still-blocked key is answered 429 before the
finish listener is even installed (state untouched); an expired block
is deleted and the request proceeds; otherwise the handler answers and
the finish callback fires on its status. -/
def bfStep (cfg : BFConfig) (st : BFState) (key : String) (now : Int)
    (handlerStatus : Nat) : BFResult :=
  match st.blocked key with
  | some untl =>
      if now < untl then
        { state := st, statusCode := 429, handlerReached := false }
      else
        { state :=
            recordFinish cfg
              { st with blocked := fun k => if k = key then none else st.blocked k }
              key now handlerStatus
          statusCode := handlerStatus
          handlerReached := true }
  | none =>
      { state := recordFinish cfg st key now handlerStatus
        statusCode := handlerStatus
        handlerReached := true }

end LifeCoach

namespace LifeCoach

/-! ## Theorems about the Goal model -/

/-- Helper: `updateProgress` always stores the clamped value. -/
theorem updateProgress_progress (g : Goal) (p : Rat) (note : String) (now : Int) :
    (g.updateProgress p note now).progress = max 0 (min 100 p) := by
  simp only [Goal.updateProgress]
  split <;> rfl

/-- C1: `updateProgress(newProgress, note)` stores
`max(0, min(100, newProgress))` in `progress`; in particular the stored
progress lies in `[0, 100]`. -/
theorem updateProgress_clamps (g : Goal) (p : Rat) (note : String) (now : Int) :
    (g.updateProgress p note now).progress = max 0 (min 100 p) ∧
    0 ≤ (g.updateProgress p note now).progress ∧
    (g.updateProgress p note now).progress ≤ 100 := by
  have h := updateProgress_progress g p note now
  refine ⟨h, ?_, ?_⟩
  · rw [h]; exact le_max_left 0 _
  · rw [h]
    exact max_le (by norm_num) (min_le_left _ _)

/-- Helper: `updateProgress` never touches `checkIns`. -/
theorem updateProgress_checkIns (g : Goal) (p : Rat) (note : String) (now : Int) :
    (g.updateProgress p note now).checkIns = g.checkIns := by
  simp only [Goal.updateProgress]
  split <;> rfl

/-- Helper: `updateProgress` appends exactly one `progressHistory`
entry, carrying the clamped progress. -/
theorem updateProgress_history (g : Goal) (p : Rat) (note : String) (now : Int) :
    (g.updateProgress p note now).progressHistory =
      g.progressHistory ++ [{ date := now, progress := max 0 (min 100 p), note := note }] := by
  simp only [Goal.updateProgress]
  split <;> rfl

/-- Helper: the status after `updateProgress`, as a conditional. -/
theorem updateProgress_status (g : Goal) (p : Rat) (note : String) (now : Int) :
    (g.updateProgress p note now).status =
      if max 0 (min 100 p) = 100 ∧ g.status ≠ GoalStatus.completed then
        GoalStatus.completed
      else g.status := by
  simp only [Goal.updateProgress]
  split <;> simp_all

/-- Helper: each goal operation preserves the one-way completion
invariant: after the operation, progress 100 implies status
`completed`. -/
theorem applyGoalOp_completion (g : Goal) (op : GoalOp)
    (h : g.progress = 100 → g.status = GoalStatus.completed) :
    (applyGoalOp g op).progress = 100 → (applyGoalOp g op).status = GoalStatus.completed := by
  cases op with
  | updateProgress p note now =>
      intro hp
      rw [show applyGoalOp g (GoalOp.updateProgress p note now) =
            g.updateProgress p note now from rfl] at hp ⊢
      rw [updateProgress_progress] at hp
      rw [updateProgress_status]
      by_cases hst : g.status = GoalStatus.completed
      · rw [if_neg (fun hc => hc.2 hst)]
        exact hst
      · rw [if_pos ⟨hp, hst⟩]
  | checkIn c =>
      intro hp
      simpa only [applyGoalOp, Goal.addCheckIn] using h hp

/-- Helper: the completion invariant holds after any operation
sequence starting from a goal satisfying it. -/
theorem applyGoalOps_completion (ops : List GoalOp) (g : Goal)
    (h : g.progress = 100 → g.status = GoalStatus.completed) :
    (applyGoalOps g ops).progress = 100 →
      (applyGoalOps g ops).status = GoalStatus.completed := by
  induction ops generalizing g with
  | nil => exact h
  | cons op rest ih =>
      exact ih (applyGoalOp g op) (applyGoalOp_completion g op h)

/-- C2 (counterexample): from a fresh goal (`active`, progress 0),
updating progress to 100 and then back to 50 leaves the status
`completed` while the progress is 50, so status = completed does NOT
hold exactly when progress = 100. -/
theorem completion_iff_counterexample :
    sampleFreshGoal.status = GoalStatus.active ∧
    sampleFreshGoal.progress = 0 ∧
    ¬ ((applyGoalOps sampleFreshGoal
          [GoalOp.updateProgress 100 "done" 0,
           GoalOp.updateProgress 50 "rollback" 1]).status = GoalStatus.completed ↔
        (applyGoalOps sampleFreshGoal
          [GoalOp.updateProgress 100 "done" 0,
           GoalOp.updateProgress 50 "rollback" 1]).progress = 100) := by
  refine ⟨rfl, rfl, ?_⟩
  intro hiff
  have h50 : (applyGoalOps sampleFreshGoal
      [GoalOp.updateProgress 100 "done" 0,
       GoalOp.updateProgress 50 "rollback" 1]).progress = 100 :=
    hiff.mp (by decide)
  rw [show (applyGoalOps sampleFreshGoal
      [GoalOp.updateProgress 100 "done" 0,
       GoalOp.updateProgress 50 "rollback" 1]).progress = 50 from by decide] at h50
  norm_num at h50

/-- C2 (amended): for every goal reachable from a freshly created goal
(status `active`, progress 0) by `updateProgress` calls and check-ins,
progress = 100 implies status = `completed`.  The converse direction
fails (see the counterexample): a later `updateProgress` below 100
keeps the status `completed`. -/
theorem reachable_progress100_completed (g0 : Goal) (ops : List GoalOp)
    (_hst : g0.status = GoalStatus.active) (hpr : g0.progress = 0) :
    (applyGoalOps g0 ops).progress = 100 →
      (applyGoalOps g0 ops).status = GoalStatus.completed := by
  refine applyGoalOps_completion ops g0 (fun h100 => ?_)
  rw [hpr] at h100
  norm_num at h100

/-- Witness for C2 (amended): a single update to 100 on a fresh goal
reaches progress 100, and the theorem yields status `completed`. -/
theorem reachable_progress100_completed_witness :
    (applyGoalOps sampleFreshGoal [GoalOp.updateProgress 100 "done" 0]).status =
      GoalStatus.completed :=
  reachable_progress100_completed sampleFreshGoal
    [GoalOp.updateProgress 100 "done" 0] rfl rfl (by decide)

/-- C3: `updateProgress` appends exactly one entry to
`progressHistory` (keeping every pre-existing entry as a prefix) and
leaves `checkIns` unchanged; the check-in operation appends exactly one
entry to `checkIns` and leaves `progressHistory` unchanged. -/
theorem logs_append_only (g : Goal) (p : Rat) (note : String) (now : Int) (c : CheckIn) :
    (g.updateProgress p note now).progressHistory =
      g.progressHistory ++ [{ date := now, progress := max 0 (min 100 p), note := note }] ∧
    (g.updateProgress p note now).checkIns = g.checkIns ∧
    (g.addCheckIn c).checkIns = g.checkIns ++ [c] ∧
    (g.addCheckIn c).progressHistory = g.progressHistory :=
  ⟨updateProgress_history g p note now, updateProgress_checkIns g p note now, rfl, rfl⟩

/-! ## Theorems about the error pipeline -/

/-- C4: in production, for an API request (`originalUrl` starting with
`/api`) whose error reaches `sendErrorProd`: an operational error is
answered with its own `statusCode` and a body whose `error` field is
exactly its message; a non-operational error is answered with status
500 and the fixed generic body, which does not depend on the error
message at all. -/
theorem sendErrorProd_api (e : ErrObj) (url : String) (s : Nat)
    (hapi : jsStartsWith url "/api" = true) (hs : e.statusCode = some s) :
    (e.isOperational = true →
       sendErrorProd e url =
         Resp.json s
           { success := false
             error := some e.message
             retryAfter := if s = 429 then e.retryAfter else none }) ∧
    (e.isOperational = false →
       sendErrorProd e url =
         Resp.json 500 { success := false, error := some genericProdMessage }) := by
  constructor <;> intro hop <;> simp [sendErrorProd, hapi, hop, hs]

/-- Witness for C4: a concrete operational 404 is surfaced verbatim and
a concrete programming error is masked as the generic 500. -/
theorem sendErrorProd_api_witness :
    sendErrorProd (mkAppError "Goal not found" 404) "/api/goals/7" =
      Resp.json 404 { success := false, error := some "Goal not found" } ∧
    sendErrorProd
      { name := some "TypeError"
        message := "Cannot read properties of undefined"
        statusCode := some 500
        status := some "error"
        isOperational := false
        code := none
        keyValue := []
        errorsMsgs := []
        path := none
        value := none
        type := none
        responseStatus := none
        retryAfter := none } "/api/goals/7" =
      Resp.json 500 { success := false, error := some genericProdMessage } := by
  have h1 := sendErrorProd_api (mkAppError "Goal not found" 404) "/api/goals/7" 404
    (by decide) rfl
  have h2 := sendErrorProd_api
    { name := some "TypeError"
      message := "Cannot read properties of undefined"
      statusCode := some 500
      status := some "error"
      isOperational := false
      code := none
      keyValue := []
      errorsMsgs := []
      path := none
      value := none
      type := none
      responseStatus := none
      retryAfter := none } "/api/goals/7" 500 (by decide) rfl
  exact ⟨by simpa using h1.1 rfl, h2.2 rfl⟩

/-- C5 (counterexample): a registration request that passes the
duplicate pre-check but whose `save()` raises the MongoDB duplicate-key
error (code 11000) on the email field is answered by the route's own
`catch` with status 500 (`Registration failed`), not 400 — the error
never reaches the error-handling pipeline. -/
theorem duplicate_email_register_counterexample :
    (registerHandler false
        (SaveOutcome.err (mkMongoDuplicateError "email" "user@example.com"))).statusCodeOf
      = 500 ∧
    (registerHandler false
        (SaveOutcome.err (mkMongoDuplicateError "email" "user@example.com"))).statusCodeOf
      ≠ 400 := by
  constructor <;> decide

/-- C5 (amended): the duplicate-key translator of `globalErrorHandler`
does turn an 11000 error that reaches it into an operational 400 whose
message names the duplicated field and value; but registering with a
duplicate email is answered 400 (`User already exists`) by the route's
own pre-check, a duplicate-key error raised by `save()` itself is
answered 500 (`Registration failed`) by the route's `catch`, and even a
forwarded `MongoServerError` would be masked as an operational 500 by
the installed `handleDatabaseError` middleware before the duplicate
translator could see it. -/
theorem duplicate_email_amended :
    (∀ (field value url : String), jsStartsWith url "/api" = true →
       globalErrorHandlerProd (mkMongoDuplicateError field value) url =
         Resp.json 400
           { success := false
             error := some (field ++ " \x27" ++ value ++
               "\x27 already exists. Please use another value.") }) ∧
    (∀ save : SaveOutcome,
       registerHandler true save =
         Resp.json 400 { success := false, error := some "User already exists" }) ∧
    (∀ e : ErrObj,
       registerHandler false (SaveOutcome.err e) =
         Resp.json 500 { success := false, error := some "Registration failed" }) ∧
    (∀ (field value url : String), jsStartsWith url "/api" = true →
       errorChainProd (mkMongoDuplicateError field value) url =
         Resp.json 500
           { success := false, error := some "Database operation failed. Please try again." }) := by
  refine ⟨?_, ?_, ?_, ?_⟩
  · intro field value url hapi
    simp [globalErrorHandlerProd, translateError, defaultStatused, stepCast, stepDup,
      stepValidation, stepJWT, stepJWTExpired, stepMongoConn, stepRateLimit, stepOpenAI,
      mkMongoDuplicateError, handleDuplicateFieldsDB, mkAppError, sendErrorProd, hapi]
  · intro save
    simp [registerHandler]
  · intro e
    simp [registerHandler]
  · intro field value url hapi
    simp [errorChainProd, handleDatabaseErrorStep, globalErrorHandlerProd, translateError,
      defaultStatused, stepCast, stepDup, stepValidation, stepJWT, stepJWTExpired,
      stepMongoConn, stepRateLimit, stepOpenAI, mkMongoDuplicateError, mkAppError,
      sendErrorProd, hapi]

/-- Witness for C5 (amended): all four conjuncts at concrete inputs. -/
theorem duplicate_email_amended_witness :
    globalErrorHandlerProd (mkMongoDuplicateError "email" "a@b.com") "/api/auth/register" =
      Resp.json 400
        { success := false
          error := some ("email" ++ " \x27" ++ "a@b.com" ++
            "\x27 already exists. Please use another value.") } ∧
    registerHandler true SaveOutcome.ok =
      Resp.json 400 { success := false, error := some "User already exists" } ∧
    registerHandler false (SaveOutcome.err (mkMongoDuplicateError "email" "a@b.com")) =
      Resp.json 500 { success := false, error := some "Registration failed" } ∧
    errorChainProd (mkMongoDuplicateError "email" "a@b.com") "/api/auth/register" =
      Resp.json 500
        { success := false, error := some "Database operation failed. Please try again." } :=
  ⟨duplicate_email_amended.1 "email" "a@b.com" "/api/auth/register" (by decide),
   duplicate_email_amended.2.1 SaveOutcome.ok,
   duplicate_email_amended.2.2.1 (mkMongoDuplicateError "email" "a@b.com"),
   duplicate_email_amended.2.2.2 "email" "a@b.com" "/api/auth/register" (by decide)⟩

/-- Helper: a translation step of the shape
`if c then handler e else e` preserves `TranslatedFrom` when every
handler output is an operational error with a translator code. -/
theorem translatedFrom_step {orig e : ErrObj} (c : Prop) [Decidable c] (f : ErrObj → ErrObj)
    (hf : ∀ x, (f x).isOperational = true ∧ (f x).statusCode.getD 500 ∈ coreTranslatedCodes)
    (h : TranslatedFrom orig e) : TranslatedFrom orig (if c then f e else e) := by
  split
  · exact Or.inr (hf e)
  · exact h

/-- Helper: every `handleOpenAIError` output is operational with a
translator code. -/
theorem handleOpenAIError_core (x : ErrObj) :
    (handleOpenAIError x).isOperational = true ∧
    (handleOpenAIError x).statusCode.getD 500 ∈ coreTranslatedCodes := by
  unfold handleOpenAIError
  split <;> exact ⟨rfl, by decide⟩

/-- Helper: the whole translation chain of `globalErrorHandler` either
leaves the error untouched or yields an operational error with a
translator status code. -/
theorem translateError_translatedFrom (orig : ErrObj) :
    TranslatedFrom orig (translateError orig) := by
  have h0 : TranslatedFrom orig orig := Or.inl rfl
  have h1 : TranslatedFrom orig (stepCast orig) :=
    translatedFrom_step _ handleCastErrorDB
      (fun _ => ⟨rfl, show (400 : Nat) ∈ coreTranslatedCodes by decide⟩) h0
  have h2 : TranslatedFrom orig (stepDup (stepCast orig)) :=
    translatedFrom_step _ handleDuplicateFieldsDB
      (fun _ => ⟨rfl, show (400 : Nat) ∈ coreTranslatedCodes by decide⟩) h1
  have h3 : TranslatedFrom orig (stepValidation (stepDup (stepCast orig))) :=
    translatedFrom_step _ handleValidationErrorDB
      (fun _ => ⟨rfl, show (400 : Nat) ∈ coreTranslatedCodes by decide⟩) h2
  have h4 : TranslatedFrom orig (stepJWT (stepValidation (stepDup (stepCast orig)))) :=
    translatedFrom_step _ (fun _ => handleJWTError)
      (fun _ => ⟨rfl, show (401 : Nat) ∈ coreTranslatedCodes by decide⟩) h3
  have h5 : TranslatedFrom orig
      (stepJWTExpired (stepJWT (stepValidation (stepDup (stepCast orig))))) :=
    translatedFrom_step _ (fun _ => handleJWTExpiredError)
      (fun _ => ⟨rfl, show (401 : Nat) ∈ coreTranslatedCodes by decide⟩) h4
  have h6 : TranslatedFrom orig
      (stepMongoConn (stepJWTExpired (stepJWT (stepValidation (stepDup (stepCast orig)))))) :=
    translatedFrom_step _ handleDBConnectionError
      (fun _ => ⟨rfl, show (503 : Nat) ∈ coreTranslatedCodes by decide⟩) h5
  have h7 : TranslatedFrom orig
      (stepRateLimit (stepMongoConn (stepJWTExpired (stepJWT
        (stepValidation (stepDup (stepCast orig))))))) :=
    translatedFrom_step _ handleRateLimitError
      (fun _ => ⟨rfl, show (429 : Nat) ∈ coreTranslatedCodes by decide⟩) h6
  exact translatedFrom_step _ handleOpenAIError handleOpenAIError_core h7

/-- Helper: on an API URL, `sendErrorProd` always answers JSON with
`success: false`. -/
theorem sendErrorProd_success (e : ErrObj) (url : String)
    (hapi : jsStartsWith url "/api" = true) :
    (sendErrorProd e url).successField = some false := by
  unfold sendErrorProd
  simp only [hapi, if_true]
  split <;> rfl

/-- Helper: on an API URL, `sendErrorProd` answers with the error's own
(defaulted) status code when it is operational and 500 otherwise. -/
theorem sendErrorProd_status (e : ErrObj) (url : String)
    (hapi : jsStartsWith url "/api" = true) :
    (sendErrorProd e url).statusCodeOf =
      if e.isOperational then e.statusCode.getD 500 else 500 := by
  unfold sendErrorProd
  simp only [hapi, if_true]
  split <;> rfl

/-- C6: every error response of the modelled HTTP layer carries
`success: false` and a conventional status code: validation failures
(400), every response the JWT auth middleware produces itself
(401/403/500), and — in production, on API URLs — every response of the
global error handler, provided the incoming error, when operational,
carries one of the conventional codes (which all `AppError`
construction sites of the source do). -/
theorem error_responses_enveloped :
    (∀ (errs : List RawValidationError) (r : Resp),
       handleValidationErrors errs = some r →
         r.statusCodeOf ∈ allowedErrorCodes ∧ r.successField = some false) ∧
    (∀ (ctx : AuthCtx) (r : Resp),
       authMiddleware ctx = some r →
         r.statusCodeOf ∈ allowedErrorCodes ∧ r.successField = some false) ∧
    (∀ (e : ErrObj) (url : String),
       jsStartsWith url "/api" = true →
       (e.isOperational = true → e.statusCode.getD 500 ∈ allowedErrorCodes) →
       (globalErrorHandlerProd e url).successField = some false ∧
       (globalErrorHandlerProd e url).statusCodeOf ∈ allowedErrorCodes) := by
  refine ⟨?_, ?_, ?_⟩
  · intro errs r h
    unfold handleValidationErrors at h
    split at h
    · exact absurd h (by simp)
    · injection h with h
      subst h
      exact ⟨show (400 : Nat) ∈ allowedErrorCodes by decide, rfl⟩
  · intro ctx r h
    unfold authMiddleware at h
    repeat' split at h
    all_goals
      first
      | (injection h with h; subst h; exact ⟨by decide, rfl⟩)
      | simp at h
  · intro e url hapi hop
    have ht := translateError_translatedFrom (defaultStatused e)
    unfold globalErrorHandlerProd
    refine ⟨sendErrorProd_success _ _ hapi, ?_⟩
    rw [sendErrorProd_status _ _ hapi]
    rcases ht with heq | ⟨hopr, hcode⟩
    · rw [heq]
      have hde1 : (defaultStatused e).isOperational = e.isOperational := rfl
      have hde2 : (defaultStatused e).statusCode = some (e.statusCode.getD 500) := rfl
      rw [hde1, hde2]
      cases hb : e.isOperational
      · simp only [Bool.false_eq_true, if_false]
        exact show (500 : Nat) ∈ allowedErrorCodes by decide
      · simp only [if_true, Option.getD_some]
        exact hop hb
    · rw [if_pos hopr]
      have hsub : ∀ x ∈ coreTranslatedCodes, x ∈ allowedErrorCodes := by decide
      exact hsub _ hcode

/-- Witness for C6: the three conjuncts at concrete inputs — one
failed validation, one token-less request, one operational 404 through
the production error handler. -/
theorem error_responses_enveloped_witness :
    ((Resp.json 400
        { success := false
          error := some "Validation failed"
          details := [{ field := "email", message := "Invalid email", value := "nope" }]
          : JsonBody }).statusCodeOf ∈ allowedErrorCodes ∧
      (Resp.json 400
        { success := false
          error := some "Validation failed"
          details := [{ field := "email", message := "Invalid email", value := "nope" }]
          : JsonBody }).successField = some false) ∧
    ((Resp.json 401 { success := false, error := some "Access denied. No token provided." }
        : Resp).statusCodeOf ∈ allowedErrorCodes ∧
      (Resp.json 401 { success := false, error := some "Access denied. No token provided." }
        : Resp).successField = some false) ∧
    ((globalErrorHandlerProd (mkAppError "Goal not found" 404) "/api/goals/9").successField
        = some false ∧
      (globalErrorHandlerProd (mkAppError "Goal not found" 404) "/api/goals/9").statusCodeOf
        ∈ allowedErrorCodes) := by
  refine ⟨?_, ?_, ?_⟩
  · exact error_responses_enveloped.1
      [{ path := "email", msg := "Invalid email", value := "nope" }] _ (by decide)
  · exact error_responses_enveloped.2.1
      { authHeader := none, verify := TokenVerify.ok, user := none } _ (by decide)
  · exact error_responses_enveloped.2.2 (mkAppError "Goal not found" 404) "/api/goals/9"
      (by decide) (fun _ => by decide)

/-! ## Theorems about chat messages -/

/-- Helper: when the update function fixes every message,
`findOneAndUpdate` leaves the store unchanged. -/
theorem updateFirst_fixes (p : Message → Bool) (f : Message → Message)
    (hf : ∀ m, f m = m) : ∀ store : List Message, updateFirst p f store = store := by
  intro store
  induction store with
  | nil => rfl
  | cons m ms ih =>
      unfold updateFirst
      split
      · rw [hf]
      · rw [ih]

/-- A concrete AI message for evaluating the feedback endpoint. -/
def sampleAiMessage : Message :=
  { id := 42
    userId := 7
    conversationId := some "conv_1700000000000"
    type := MsgType.ai
    content := "Keep going, you are close to your goal!"
    embedding := [1/2, -1/4]
    metadata :=
      { goalContext := [{ goalId := 3, relevanceScore := some (4/5) }]
        sentiment := some (1/2)
        intent := some "motivation"
        confidence := some (9/10) } }

/-- C7: the feedback endpoint is indeed the only chat operation that
runs an update against an existing message, and no chat operation
touches a stored message's content, type, conversation identifier,
embedding or ownership — but contrary to the claim, the endpoint does
not set `metadata.userRating`, `metadata.userFeedback` or
`metadata.feedbackDate`: none of these paths is declared by
`messageSchema`, so the strict-mode update strips the whole `$set` and
the matched message is stored back entirely unchanged (while the route
still answers `Feedback recorded`).  Stated for the strict filter, for
every message, for whole stores under all three chat operations, and
evaluated at a concrete message. -/
theorem chat_feedback_strict_noop :
    (∀ (rating : Rat) (feedback : String) (now : Int),
       strictFilter (feedbackSetPaths rating feedback now) = []) ∧
    (∀ (m : Message) (rating : Rat) (feedback : String) (now : Int),
       applyFeedback m rating feedback now = m) ∧
    (∀ (store : List Message) (mid uid : Nat) (r : Rat) (fb : String) (now : Int),
       applyChatOp store (ChatOp.feedback mid uid r fb now) = store) ∧
    (∀ (store : List Message) (u a : Message),
       applyChatOp store (ChatOp.sendMessage u a) = store ++ [u, a]) ∧
    (∀ store : List Message, applyChatOp store ChatOp.history = store) ∧
    applyFeedback sampleAiMessage 5 "very helpful" 1700000000000 = sampleAiMessage := by
  have h1 : ∀ (rating : Rat) (feedback : String) (now : Int),
      strictFilter (feedbackSetPaths rating feedback now) = [] := by
    intro rating feedback now
    simp [strictFilter, feedbackSetPaths, messageSchemaPaths]
  have h2 : ∀ (m : Message) (rating : Rat) (feedback : String) (now : Int),
      applyFeedback m rating feedback now = m := by
    intro m rating feedback now
    unfold applyFeedback runSet
    rw [h1]
    rfl
  refine ⟨h1, h2, ?_, fun _ _ _ => rfl, fun _ => rfl, h2 sampleAiMessage 5 "very helpful" 1700000000000⟩
  intro store mid uid r fb now
  show updateFirst _ _ store = store
  exact updateFirst_fixes _ _ (fun m => h2 m r fb now) store

/-! ## Theorems about the goal analysis service -/

/-- C8: `calculateOverallProgress` returns, when no goal is active,
average 100 / status `all_completed` (some goal completed) or average 0
/ status `no_goals` (none), with `activeCount` 0; and with active
goals, the mean of the active progresses rounded to the nearest
integer, the two counts, and the threshold status of the unrounded
mean (>= 80 excellent, >= 60 good, >= 40 fair, else needs_attention). -/
theorem calculateOverallProgress_correct (goals : List Goal) :
    ((activeGoalsOf goals).length = 0 → (completedGoalsOf goals).length ≠ 0 →
       (calculateOverallProgress goals).averageProgress = 100 ∧
       (calculateOverallProgress goals).status = "all_completed" ∧
       (calculateOverallProgress goals).activeCount = 0 ∧
       (calculateOverallProgress goals).completedCount = (completedGoalsOf goals).length) ∧
    ((activeGoalsOf goals).length = 0 → (completedGoalsOf goals).length = 0 →
       (calculateOverallProgress goals).averageProgress = 0 ∧
       (calculateOverallProgress goals).status = "no_goals" ∧
       (calculateOverallProgress goals).activeCount = 0 ∧
       (calculateOverallProgress goals).completedCount = 0) ∧
    ((activeGoalsOf goals).length ≠ 0 →
       (calculateOverallProgress goals).averageProgress = round (meanActiveProgress goals) ∧
       (calculateOverallProgress goals).activeCount = (activeGoalsOf goals).length ∧
       (calculateOverallProgress goals).completedCount = (completedGoalsOf goals).length ∧
       ((80 ≤ meanActiveProgress goals →
           (calculateOverallProgress goals).status = "excellent") ∧
        (60 ≤ meanActiveProgress goals → meanActiveProgress goals < 80 →
           (calculateOverallProgress goals).status = "good") ∧
        (40 ≤ meanActiveProgress goals → meanActiveProgress goals < 60 →
           (calculateOverallProgress goals).status = "fair") ∧
        (meanActiveProgress goals < 40 →
           (calculateOverallProgress goals).status = "needs_attention"))) := by
  refine ⟨?_, ?_, ?_⟩
  · intro h0 hc
    simp [calculateOverallProgress, h0, Nat.pos_of_ne_zero hc]
  · intro h0 hc
    simp [calculateOverallProgress, h0, hc]
  · intro h0
    have hne : ¬ (activeGoalsOf goals).length = 0 := h0
    refine ⟨?_, ?_, ?_, ?_, ?_, ?_, ?_⟩
    · simp only [calculateOverallProgress, if_neg hne]
      exact (round_eq _).symm
    · simp [calculateOverallProgress, hne]
    · simp [calculateOverallProgress, hne]
    · intro h80
      simp [calculateOverallProgress, hne, getProgressStatus, progressThresholds, h80]
    · intro h60 h80
      simp [calculateOverallProgress, hne, getProgressStatus, progressThresholds,
        not_le.mpr h80, h60]
    · intro h40 h60
      have h80 : meanActiveProgress goals < 80 :=
        h60.trans_le (show (60 : Rat) ≤ 80 by norm_num)
      simp [calculateOverallProgress, hne, getProgressStatus, progressThresholds,
        not_le.mpr h60, not_le.mpr h80, h40]
    · intro h40
      have h60 : meanActiveProgress goals < 60 :=
        h40.trans_le (show (40 : Rat) ≤ 60 by norm_num)
      have h80 : meanActiveProgress goals < 80 :=
        h40.trans_le (show (40 : Rat) ≤ 80 by norm_num)
      simp [calculateOverallProgress, hne, getProgressStatus, progressThresholds,
        not_le.mpr h40, not_le.mpr h60, not_le.mpr h80]

/-- Concrete goal list for the C8 witness: two active goals at 90 and
80 percent and one completed goal. -/
def sampleGoalsC8 : List Goal :=
  [{ sampleFreshGoal with progress := 90 },
   { sampleFreshGoal with progress := 80 },
   { sampleFreshGoal with status := GoalStatus.completed, progress := 100 }]

/-- Witness for C8: on the concrete list the mean of the active goals
is 85, so the result is the rounded mean with status `excellent` and
the right counts. -/
theorem calculateOverallProgress_correct_witness :
    (calculateOverallProgress sampleGoalsC8).averageProgress =
      round (meanActiveProgress sampleGoalsC8) ∧
    (calculateOverallProgress sampleGoalsC8).activeCount = 2 ∧
    (calculateOverallProgress sampleGoalsC8).completedCount = 1 ∧
    (calculateOverallProgress sampleGoalsC8).status = "excellent" := by
  have h := (calculateOverallProgress_correct sampleGoalsC8).2.2 (by decide)
  have hf : activeGoalsOf sampleGoalsC8 =
      [{ sampleFreshGoal with progress := 90 }, { sampleFreshGoal with progress := 80 }] := by
    decide
  have hm : meanActiveProgress sampleGoalsC8 = 85 := by
    rw [meanActiveProgress, hf]
    norm_num [sampleFreshGoal]
  refine ⟨h.1, ?_, ?_, h.2.2.2.1 (by rw [hm]; norm_num)⟩
  · rw [h.2.1]; decide
  · rw [h.2.2.1]; decide

/-- C9: the list returned by `generateRecommendations` is sorted in
non-increasing priority — whenever one recommendation precedes
another, the numeric priority (high 3, medium 2, low 1) of the earlier
one is at least that of the later one; in particular every `high`
precedes every `medium`, which precedes every `low`. -/
theorem generateRecommendations_sorted (now : Int) (goals : List Goal) :
    List.Pairwise (fun a b => priorityNum b.priority ≤ priorityNum a.priority)
      (generateRecommendations now goals) :=
  List.sorted_insertionSort recPriorityGE _

/-! ## Theorems about the brute force protection -/

/-- Helper: a failed (401/403) response on a key whose stored count is
one short of the limit, inside the window, blocks the key for
`blockDuration` and clears its attempts entry. -/
theorem recordFinish_blocks (cfg : BFConfig) (st : BFState) (key : String) (now : Int)
    (s : Nat) (info : AttemptInfo) (hs : s = 401 ∨ s = 403)
    (ha : st.attempts key = some info) (hw : now - info.firstAttempt ≤ cfg.windowMs)
    (hm : cfg.maxAttempts ≤ info.count + 1) :
    (recordFinish cfg st key now s).attempts key = none ∧
    (recordFinish cfg st key now s).blocked key = some (now + cfg.blockDuration) := by
  unfold recordFinish
  rw [if_pos hs, ha]
  simp only [Option.getD_some, if_neg (not_lt.mpr hw)]
  rw [if_pos hm]
  constructor <;> simp

/-- Helper: when the key has no attempts entry and `maxAttempts`
exceeds 1, the finish callback never blocks the key. -/
theorem recordFinish_no_block (cfg : BFConfig) (st : BFState) (key : String) (now : Int)
    (s : Nat) (ha : st.attempts key = none) (hm : 1 < cfg.maxAttempts) :
    (recordFinish cfg st key now s).blocked key = st.blocked key := by
  unfold recordFinish
  split
  · rw [ha]
    simp only [Option.getD_none]
    split
    · rw [if_neg (by simpa using not_le.mpr hm)]
    · rw [if_neg (by simpa using not_le.mpr hm)]
  · split <;> rfl

/-- Helper: a 2xx response clears the attempts entry. -/
theorem recordFinish_clears (cfg : BFConfig) (st : BFState) (key : String) (now : Int)
    (s : Nat) (h2 : 200 ≤ s) (h3 : s < 300) :
    (recordFinish cfg st key now s).attempts key = none := by
  unfold recordFinish
  rw [if_neg (by omega), if_pos ⟨h2, h3⟩]
  simp

/-- C10: the brute force middleware as a state machine on the
`attempts`/`blocked` maps keyed by ip:email.  (a) once a key
accumulates `maxAttempts` failed (401/403) responses within
`windowMs`, it becomes blocked until `now + blockDuration` and its
count is cleared; (b) every request for a blocked key before the block
expires is answered 429 without reaching the wrapped handler and
without changing the state; (c) a request after the block has expired
removes the block and reaches the handler; (d) a 2xx response clears
the accumulated failed-attempt count. -/
theorem bruteForceProtection_state_machine (cfg : BFConfig) (st : BFState)
    (key : String) (now : Int) (s : Nat) :
    (∀ info : AttemptInfo,
       st.blocked key = none → (s = 401 ∨ s = 403) →
       st.attempts key = some info → now - info.firstAttempt ≤ cfg.windowMs →
       cfg.maxAttempts ≤ info.count + 1 →
       (bfStep cfg st key now s).state.blocked key = some (now + cfg.blockDuration) ∧
       (bfStep cfg st key now s).state.attempts key = none ∧
       (bfStep cfg st key now s).handlerReached = true) ∧
    (∀ u : Int, st.blocked key = some u → now < u →
       (bfStep cfg st key now s).statusCode = 429 ∧
       (bfStep cfg st key now s).handlerReached = false ∧
       (bfStep cfg st key now s).state = st) ∧
    (∀ u : Int, st.blocked key = some u → u ≤ now →
       st.attempts key = none → 1 < cfg.maxAttempts →
       (bfStep cfg st key now s).handlerReached = true ∧
       (bfStep cfg st key now s).state.blocked key = none) ∧
    (st.blocked key = none → 200 ≤ s → s < 300 →
       (bfStep cfg st key now s).state.attempts key = none) := by
  refine ⟨?_, ?_, ?_, ?_⟩
  · intro info hb hs ha hw hm
    have hstep : bfStep cfg st key now s =
        { state := recordFinish cfg st key now s
          statusCode := s
          handlerReached := true } := by
      unfold bfStep; rw [hb]
    rw [hstep]
    have h := recordFinish_blocks cfg st key now s info hs ha hw hm
    exact ⟨h.2, h.1, rfl⟩
  · intro u hb hu
    have hstep : bfStep cfg st key now s =
        { state := st, statusCode := 429, handlerReached := false } := by
      unfold bfStep; rw [hb]; dsimp only; rw [if_pos hu]
    rw [hstep]
    exact ⟨rfl, rfl, rfl⟩
  · intro u hb hu ha hm
    have hstep : bfStep cfg st key now s =
        { state :=
            recordFinish cfg
              { st with blocked := fun k => if k = key then none else st.blocked k }
              key now s
          statusCode := s
          handlerReached := true } := by
      unfold bfStep; rw [hb]; dsimp only; rw [if_neg (not_lt.mpr hu)]
    rw [hstep]
    refine ⟨rfl, ?_⟩
    rw [recordFinish_no_block cfg
      { st with blocked := fun k => if k = key then none else st.blocked k }
      key now s ha hm]
    simp
  · intro hb h2 h3
    have hstep : bfStep cfg st key now s =
        { state := recordFinish cfg st key now s
          statusCode := s
          handlerReached := true } := by
      unfold bfStep; rw [hb]
    rw [hstep]
    exact recordFinish_clears cfg st key now s h2 h3

/-- The concrete key of the C10 witness. -/
def bfKey : String := "10.0.0.1:bob@example.com"

/-- A state with four failures recorded for the key and no block. -/
def bfStateA : BFState :=
  { attempts := fun k => if k = bfKey then some { count := 4, firstAttempt := 0 } else none
    blocked := fun _ => none }

/-- A state with the key blocked until time 1000. -/
def bfStateB : BFState :=
  { attempts := fun _ => none
    blocked := fun k => if k = bfKey then some 1000 else none }

/-- Witness for C10: with the default configuration, a fifth 401
inside the window blocks the key; a request at time 500 against a
block expiring at 1000 gets 429 without reaching the handler; a
request at time 2000 removes the expired block and reaches the
handler; a 200 response clears the attempt count. -/
theorem bruteForceProtection_state_machine_witness :
    ((bfStep {} bfStateA bfKey 1000 401).state.blocked bfKey =
        some (1000 + ({} : BFConfig).blockDuration) ∧
      (bfStep {} bfStateA bfKey 1000 401).state.attempts bfKey = none ∧
      (bfStep {} bfStateA bfKey 1000 401).handlerReached = true) ∧
    ((bfStep {} bfStateB bfKey 500 200).statusCode = 429 ∧
      (bfStep {} bfStateB bfKey 500 200).handlerReached = false ∧
      (bfStep {} bfStateB bfKey 500 200).state = bfStateB) ∧
    ((bfStep {} bfStateB bfKey 2000 401).handlerReached = true ∧
      (bfStep {} bfStateB bfKey 2000 401).state.blocked bfKey = none) ∧
    (bfStep {} bfStateA bfKey 1000 200).state.attempts bfKey = none := by
  refine ⟨?_, ?_, ?_, ?_⟩
  · exact (bruteForceProtection_state_machine {} bfStateA bfKey 1000 401).1
      { count := 4, firstAttempt := 0 } rfl (Or.inl rfl) (by simp [bfStateA]) (by decide)
      (by decide)
  · exact (bruteForceProtection_state_machine {} bfStateB bfKey 500 200).2.1
      1000 (by simp [bfStateB]) (by decide)
  · exact (bruteForceProtection_state_machine {} bfStateB bfKey 2000 401).2.2.1
      1000 (by simp [bfStateB]) (by decide) rfl (by decide)
  · exact (bruteForceProtection_state_machine {} bfStateA bfKey 1000 200).2.2.2
      rfl (by decide) (by decide)

end LifeCoach
